import Mathlib

/-!
Verification of the batch synchronization engine of `ShopifySyncOptimized`
(src/unnamed/part_000): chunked array partitioning, retry-with-backoff
request execution, sync-mode dispatch, configuration defaulting, rate-limit
header updates, memory-pressure cache eviction, and the cost-data cache.

Each definition below is a shallow embedding of the corresponding JavaScript
function; JS numbers that only ever hold machine integers are modelled as
`Int` (or `Nat` where the source value is a count or a millisecond delay
that is never negative on the modelled paths), JS arrays as `List`, JS `Map`
as an association list with JS-`Map`-style `get`/`set`, and thrown
exceptions as `Except` values.
-/

namespace ShopifySync

/-! ### `_chunkArray` (part_000, lines 536-542) -/

/-- Embedding of `_chunkArray(array, chunkSize)`: the loop
`for (let i = 0; i < array.length; i += chunkSize) chunks.push(array.slice(i, i + chunkSize))`
expressed as recursion on the remaining suffix (`slice(i, i+n)` of the suffix
starting at `i` is `take n` of `drop i`).  For `chunkSize = 0` the JS loop
never advances `i` and diverges on nonempty input; the recursive equation
below is guarded so the Lean function is total, and the divergence itself is
captured by the fuelled loop model `chunkLoopGo`. -/
def chunkArray (array : List α) (chunkSize : Nat) : List (List α) :=
  if array.isEmpty then []
  else if chunkSize = 0 then []
  else array.take chunkSize :: chunkArray (array.drop chunkSize) chunkSize
termination_by array.length
decreasing_by
  have h1 : ¬ array.isEmpty = true := by assumption
  have h2 : ¬ chunkSize = 0 := by assumption
  simp only [List.isEmpty_iff] at h1
  have hpos : 0 < array.length := List.length_pos.mpr h1
  simp only [List.length_drop]
  omega

/-- Literal fuelled model of the `_chunkArray` loop, one constructor per loop
test of `i < array.length`.  `none` means the fuel ran out with the loop
still running; an unbounded-fuel run that never returns `some` is a
divergent loop. -/
def chunkLoopGo (array : List α) (chunkSize : Nat) (i : Nat) (acc : List (List α)) :
    Nat → Option (List (List α))
  | 0 => if i < array.length then none else some acc.reverse
  | fuel + 1 =>
    if i < array.length then
      chunkLoopGo array chunkSize (i + chunkSize) (((array.drop i).take chunkSize) :: acc) fuel
    else some acc.reverse

/-! ### `_executeGraphQLWithRetry` (part_000, lines 454-499) -/

/-- Retry parameters drawn from `this.config` (all in milliseconds /
attempt counts; the modelled paths only ever use nonnegative values). -/
structure RetryConfig where
  maxRetries : Nat
  baseDelayMs : Nat
  maxDelayMs : Nat

/-- The backoff delay computed at lines 484-487:
`Math.min(baseDelayMs * Math.pow(2, attempt - 1), maxDelayMs)`. -/
def backoffDelay (cfg : RetryConfig) (attempt : Nat) : Nat :=
  min (cfg.baseDelayMs * 2 ^ (attempt - 1)) cfg.maxDelayMs

/-- Observable outcome of one `_executeGraphQLWithRetry` call: the returned
response or thrown error (`Except.error none` models the `throw lastError`
with `lastError` still `undefined`, reachable only when the loop body never
ran), the number of `this.metrics.errors++` executions, and the list of
`_sleep(delay)` durations in order. -/
structure RetryTrace (ε ρ : Type) where
  result : Except (Option ε) ρ
  errorIncrements : Nat
  sleeps : List Nat

/-- The retry loop body.  `remaining` counts the loop iterations still
allowed including the current one (`attempt + remaining = maxRetries + 1`
at every call from `executeGraphQLWithRetry`), so `remaining = 0` is the
loop condition `attempt <= maxRetries` failing, and inside an iteration
`remaining = 0` after destructuring is the `attempt === maxRetries` break.
`outcome k` is the result of the k-th `shopifyApi.graphql` attempt
(application-level GraphQL errors are already failures, as at lines
469-471). -/
def retryGo (cfg : RetryConfig) (outcome : Nat → Except ε ρ) (attempt : Nat)
    (lastError : Option ε) : Nat → RetryTrace ε ρ
  | 0 => { result := .error lastError, errorIncrements := 0, sleeps := [] }
  | remaining + 1 =>
    match outcome attempt with
    | .ok r => { result := .ok r, errorIncrements := 0, sleeps := [] }
    | .error e =>
      if remaining = 0 then
        { result := .error (some e), errorIncrements := 1, sleeps := [] }
      else
        let rest := retryGo cfg outcome (attempt + 1) (some e) remaining
        { result := rest.result, errorIncrements := rest.errorIncrements + 1,
          sleeps := backoffDelay cfg attempt :: rest.sleeps }

/-- Embedding of `_executeGraphQLWithRetry`: run the loop from attempt 1
with `lastError` undefined and `maxRetries` iterations available. -/
def executeGraphQLWithRetry (cfg : RetryConfig) (outcome : Nat → Except ε ρ) :
    RetryTrace ε ρ :=
  retryGo cfg outcome 1 none cfg.maxRetries

/-- Effects of one logical fetch step in a caller such as
`_fetchAllProductsOptimized` (lines 190-228): the caller awaits
`_executeGraphQLWithRetry` and only then runs `this.metrics.apiCalls++`
(line 196), so `apiCalls` is incremented once per successful logical
request and not at all when retries are exhausted; no `apiCalls` update
happens inside the retry loop itself. -/
structure CallEffects where
  succeeded : Bool
  apiCallIncrements : Nat
  errorIncrements : Nat

/-- One `await this._executeGraphQLWithRetry(query); this.metrics.apiCalls++;`
step as performed by the fetch helpers. -/
def fetchStepEffects (cfg : RetryConfig) (outcome : Nat → Except ε ρ) : CallEffects :=
  let t := executeGraphQLWithRetry cfg outcome
  match t.result with
  | .ok _ => { succeeded := true, apiCallIncrements := 1, errorIncrements := t.errorIncrements }
  | .error _ => { succeeded := false, apiCallIncrements := 0, errorIncrements := t.errorIncrements }

/-! ### Engine state: metrics, caches (constructor, lines 31-53) -/

/-- `this.metrics` (lines 45-53). -/
structure SyncMetrics where
  totalProducts : Nat
  totalVariants : Nat
  apiCalls : Nat
  dbQueries : Nat
  errors : Nat
  cacheHits : Nat
  cacheMisses : Nat

/-- `this.config` (lines 21-29); JS numbers, so negative supplied values are
representable. -/
structure SyncConfig where
  batchSize : Int
  maxRetries : Int
  baseDelayMs : Int
  maxDelayMs : Int
  memoryThreshold : Int
  chunkSize : Int

/-- JS `Map.prototype.get` on an association-list model (`none` =
`undefined`). -/
def mapGet (m : List (String × V)) (k : String) : Option V :=
  match m with
  | [] => none
  | (a, b) :: t => if a = k then some b else mapGet t k

/-- JS `Map.prototype.set` on an association-list model: replace the entry
if the key is present, else append. -/
def mapSet (m : List (String × V)) (k : String) (v : V) : List (String × V) :=
  match m with
  | [] => [(k, v)]
  | (a, b) :: t => if a = k then (a, v) :: t else (a, b) :: mapSet t k v

/-- The mutable engine state touched by the modelled methods: the four
caches created in the constructor (lines 32-35), the metrics record, the
active configuration, the `'cache_clears'` performance counter incremented
by `_clearCaches`, and observability traces recording each remote-API and
persistence-sink invocation made on behalf of this engine. -/
structure EngineState (V : Type) where
  config : SyncConfig
  metrics : SyncMetrics
  configCache : List (String × V)
  productCache : List (String × V)
  variantCache : List (String × V)
  costCache : List (String × V)
  cacheClears : Nat
  apiTrace : List String
  dbTrace : List String

/-! ### `sync` dispatch (part_000, lines 59-108) -/

/-- Embedding of `sync(syncType, options)` restricted to its
dispatch-and-catch skeleton: the `switch` selects one of the three
strategy methods (passed in as functions so the theorems quantify over
every possible pipeline behaviour), the `default` branch throws
`Unknown sync type: ...`, and the `catch` block runs
`this.metrics.errors++` before rethrowing.  Timer and memory-snapshot
calls touch only the performance monitor, not `this.metrics` or any
cache, and are omitted. -/
def syncRun (syncType : String)
    (fullSyncFn incrSyncFn singleSyncFn : EngineState V → Except String ρ × EngineState V)
    (s : EngineState V) : Except String ρ × EngineState V :=
  let step : Except String ρ × EngineState V :=
    if syncType = "full" then fullSyncFn s
    else if syncType = "partial" then incrSyncFn s
    else if syncType = "single" then singleSyncFn s
    else (.error ("Unknown sync type: " ++ syncType), s)
  match step with
  | (.ok r, s1) => (.ok r, s1)
  | (.error e, s1) =>
    (.error e, { s1 with metrics := { s1.metrics with errors := s1.metrics.errors + 1 } })

/-! ### Constructor configuration (part_000, lines 20-29) -/

/-- The recognized option fields of the `options` object (`none` = the
property is absent / `undefined`). -/
structure SyncOptions where
  batchSize : Option Int := none
  maxRetries : Option Int := none
  baseDelayMs : Option Int := none
  maxDelayMs : Option Int := none
  memoryThreshold : Option Int := none
  chunkSize : Option Int := none

/-- The numeric fields of the `options.config` object spread over the
record literal at line 28 (`none` = absent). -/
structure ConfigSpread where
  batchSize : Option Int := none
  maxRetries : Option Int := none
  baseDelayMs : Option Int := none
  maxDelayMs : Option Int := none
  memoryThreshold : Option Int := none
  chunkSize : Option Int := none

/-- JS `x || d` on an integer-or-absent value: `undefined` and the falsy
number `0` select the default; every other number, negative ones included,
is kept verbatim. -/
def jsOrDefault (v : Option Int) (d : Int) : Int :=
  match v with
  | none => d
  | some x => if x = 0 then d else x

/-- Object-spread override: a later property wins over the earlier one. -/
def spreadOver (base : Int) (ov : Option Int) : Int :=
  match ov with
  | none => base
  | some x => x

/-- Embedding of the `this.config = { ... , ...options.config }` record
construction (lines 21-29) with its literal defaults. -/
def mkSyncConfig (options : SyncOptions) (cfg : ConfigSpread) : SyncConfig :=
  { batchSize := spreadOver (jsOrDefault options.batchSize 250) cfg.batchSize
    maxRetries := spreadOver (jsOrDefault options.maxRetries 3) cfg.maxRetries
    baseDelayMs := spreadOver (jsOrDefault options.baseDelayMs 1000) cfg.baseDelayMs
    maxDelayMs := spreadOver (jsOrDefault options.maxDelayMs 30000) cfg.maxDelayMs
    memoryThreshold :=
      spreadOver (jsOrDefault options.memoryThreshold (500 * 1024 * 1024)) cfg.memoryThreshold
    chunkSize := spreadOver (jsOrDefault options.chunkSize 100) cfg.chunkSize }

/-! ### `_updateRateLimitFromHeaders` (part_000, lines 439-449) -/

/-- `this.rateLimitState` (lines 38-42). -/
structure RateLimitState where
  remaining : Int
  resetTime : Int
  bucketSize : Int

/-- Response headers as consumed by `_updateRateLimitFromHeaders`:
`apiCallLimit = some (current, max)` models a present
`x-shopify-shop-api-call-limit: current/max` header already split at the
slash and numerically coerced (the source's implicit string-to-number
coercion in `max - current`), `retryAfter` a present `retry-after`
seconds value. -/
structure ResponseHeaders where
  apiCallLimit : Option (Int × Int)
  retryAfter : Option Int

/-- Embedding of `_updateRateLimitFromHeaders(headers)`; `now` is the
`Date.now()` value read at line 447. -/
def updateRateLimitFromHeaders (now : Int) (headers : ResponseHeaders)
    (s : RateLimitState) : RateLimitState :=
  let s1 :=
    match headers.apiCallLimit with
    | some (current, max) => { s with remaining := max - current, bucketSize := max }
    | none => s
  match headers.retryAfter with
  | some secs => { s1 with resetTime := now + secs * 1000 }
  | none => s1

/-! ### Cost-data cache (part_000, lines 319-353) and memory guard (504-531) -/

/-- The comparison used by JS `Array.prototype.sort()` with no comparator
on an array of strings: lexicographic order on the character sequences. -/
def jsStringLe (a b : String) : Prop :=
  a.data ≤ b.data

instance : DecidableRel jsStringLe := fun a b =>
  inferInstanceAs (Decidable (a.data ≤ b.data))

instance : IsTotal String jsStringLe :=
  ⟨fun a b => le_total a.data b.data⟩

instance : IsTrans String jsStringLe :=
  ⟨fun _ _ _ h1 h2 => le_trans h1 h2⟩

instance : IsAntisymm String jsStringLe :=
  ⟨fun _ _ h1 h2 => String.ext (le_antisymm h1 h2)⟩

/-- `productIds.sort().join(',')` (line 320): the cache key of
`_fetchCostDataOptimized`.  Note the source sorts but does not
deduplicate. -/
def costCacheKey (productIds : List String) : String :=
  String.intercalate "," (List.insertionSort jsStringLe productIds)

/-- Embedding of `_fetchCostDataOptimized(productIds)`.  `remote`
abstracts the miss path's remote round-trip
(`_buildCostQuery` + `_executeGraphQLWithRetry` +
`_extractCostDataFromResponse`) as a function from the identifier list to
the extracted cost data; the miss path increments `cacheMisses`, performs
the remote call (recorded on `apiTrace`), increments `apiCalls`
(line 339), stores the result under the canonical key, and returns it;
the hit path increments `cacheHits` and returns the cached value. -/
def fetchCostDataOptimized (remote : List String → V) (productIds : List String)
    (s : EngineState V) : V × EngineState V :=
  let cacheKey := costCacheKey productIds
  match mapGet s.costCache cacheKey with
  | some v =>
    (v, { s with metrics := { s.metrics with cacheHits := s.metrics.cacheHits + 1 } })
  | none =>
    let s1 := { s with metrics := { s.metrics with cacheMisses := s.metrics.cacheMisses + 1 } }
    let costData := remote productIds
    let s2 :=
      { s1 with
        metrics := { s1.metrics with apiCalls := s1.metrics.apiCalls + 1 }
        apiTrace := s1.apiTrace ++ [cacheKey]
        costCache := mapSet s1.costCache cacheKey costData }
    (costData, s2)

/-- Embedding of `_clearCaches()` (lines 526-531): clears `productCache`,
`variantCache` and `costCache` and bumps the `'cache_clears'` counter.
`configCache` is not cleared — but no code path in part_000 ever inserts
into `configCache` either (it is only created, reported in `getMetrics`,
and never written), so it is empty in every reachable state. -/
def clearCaches (s : EngineState V) : EngineState V :=
  { s with
    productCache := []
    variantCache := []
    costCache := []
    cacheClears := s.cacheClears + 1 }

/-- Embedding of `_manageMemory()` (lines 504-521): if the observed heap
usage exceeds `config.memoryThreshold`, clear the caches (the `global.gc`
hint has no modelled effect). -/
def manageMemory (heapUsed : Int) (s : EngineState V) : EngineState V :=
  if heapUsed > s.config.memoryThreshold then clearCaches s else s

/-! ### Concrete instances used to evaluate the theorems -/

/-- `this.metrics` as initialised by the constructor (lines 45-53). -/
def zeroMetrics : SyncMetrics :=
  { totalProducts := 0, totalVariants := 0, apiCalls := 0, dbQueries := 0,
    errors := 0, cacheHits := 0, cacheMisses := 0 }

/-- Engine state as produced by `new ShopifySyncOptimized({})`: default
configuration, zero metrics, all caches empty. -/
def initEngineState : EngineState V :=
  { config := mkSyncConfig {} {}, metrics := zeroMetrics,
    configCache := [], productCache := [], variantCache := [],
    costCache := [], cacheClears := 0, apiTrace := [], dbTrace := [] }

/-- Retry configuration with the source's default values
(`maxRetries = 3`, `baseDelayMs = 1000`, `maxDelayMs = 30000`). -/
def defaultRetryConfig : RetryConfig :=
  { maxRetries := 3, baseDelayMs := 1000, maxDelayMs := 30000 }

/-- A request behaviour that fails on attempts 1 and 2 (with the attempt
number as the error) and succeeds on attempt 3. -/
def failTwiceOutcome : Nat → Except Nat Nat :=
  fun k => if k ≤ 2 then .error k else .ok 0

/-- Engine state whose cost cache already holds one previously-computed
entry for the identifier list `["p1"]`. -/
def cachedEngineState : EngineState Nat :=
  { @initEngineState Nat with costCache := [(costCacheKey ["p1"], 7)] }

end ShopifySync

namespace ShopifySync

/-! ## Supporting lemmas -/

theorem chunkArray_nil (n : Nat) : chunkArray ([] : List α) n = [] := by
  rw [chunkArray]
  rfl

theorem chunkArray_cons (array : List α) (n : Nat) (hne : array ≠ []) (hn : n ≠ 0) :
    chunkArray array n = array.take n :: chunkArray (array.drop n) n := by
  rw [chunkArray]
  simp [List.isEmpty_iff, hne, hn]

theorem chunkArray_flatten (array : List α) (n : Nat) (hn : n ≠ 0) :
    (chunkArray array n).flatten = array := by
  by_cases h : array = []
  · subst h; simp [chunkArray_nil]
  · rw [chunkArray_cons array n h hn, List.flatten_cons,
      chunkArray_flatten (array.drop n) n hn, List.take_append_drop]
termination_by array.length
decreasing_by
  have hpos : 0 < array.length := List.length_pos.mpr h
  simp only [List.length_drop]
  omega

theorem chunkArray_length (array : List α) (n : Nat) (hn : n ≠ 0) :
    (chunkArray array n).length = (array.length + n - 1) / n := by
  by_cases h : array = []
  · subst h
    simp only [chunkArray_nil, List.length_nil]
    have d1 : (0 + n - 1) / n = 0 := Nat.div_eq_of_lt (by omega)
    omega
  · rw [chunkArray_cons array n h hn]
    have IH := chunkArray_length (array.drop n) n hn
    have hL : 0 < array.length := List.length_pos.mpr h
    simp only [List.length_cons, List.length_drop] at IH ⊢
    rw [IH]
    have hrhs : array.length + n - 1 = (array.length - 1) + n := by omega
    rw [hrhs, Nat.add_div_right _ (by omega : 0 < n)]
    rcases Nat.lt_or_ge array.length n with hlt | hge
    · have d1 : (array.length - n + n - 1) / n = 0 := Nat.div_eq_of_lt (by omega)
      have d2 : (array.length - 1) / n = 0 := Nat.div_eq_of_lt (by omega)
      omega
    · have e1 : array.length - n + n - 1 = array.length - 1 := by omega
      rw [e1]
termination_by array.length
decreasing_by
  have hpos : 0 < array.length := List.length_pos.mpr h
  simp only [List.length_drop]
  omega

theorem chunkArray_dropLast (array : List α) (n : Nat) (hn : n ≠ 0) :
    ∀ c ∈ (chunkArray array n).dropLast, c.length = n := by
  by_cases h : array = []
  · subst h; simp [chunkArray_nil]
  · rw [chunkArray_cons array n h hn]
    by_cases h2 : chunkArray (array.drop n) n = []
    · simp [h2]
    · rw [List.dropLast_cons_of_ne_nil h2]
      intro c hc
      rcases List.mem_cons.mp hc with rfl | hc
      · have hd : array.drop n ≠ [] := by
          intro hd
          exact h2 (by rw [hd]; exact chunkArray_nil n)
        have hlen : n < array.length := by
          by_contra hle
          push_neg at hle
          exact hd (List.drop_eq_nil_of_le hle)
        simp [List.length_take]
        omega
      · exact chunkArray_dropLast (array.drop n) n hn c hc
termination_by array.length
decreasing_by
  have hpos : 0 < array.length := List.length_pos.mpr h
  simp only [List.length_drop]
  omega

theorem chunkLoopGo_some (array : List α) (n : Nat) :
    ∀ fuel i acc, array.length ≤ i + fuel * n →
      ∃ r, chunkLoopGo array n i acc fuel = some r := by
  intro fuel
  induction fuel with
  | zero =>
    intro i acc h
    refine ⟨acc.reverse, ?_⟩
    simp only [chunkLoopGo]
    rw [if_neg (by omega)]
  | succ fuel ih =>
    intro i acc h
    rw [Nat.succ_mul] at h
    by_cases hi : i < array.length
    · simp only [chunkLoopGo, if_pos hi]
      exact ih (i + n) _ (by omega)
    · exact ⟨acc.reverse, by simp only [chunkLoopGo, if_neg hi]⟩

theorem chunkLoopGo_zero_none (array : List α) (hne : array ≠ []) :
    ∀ fuel acc, chunkLoopGo array 0 0 acc fuel = none := by
  have hpos : 0 < array.length := List.length_pos.mpr hne
  intro fuel
  induction fuel with
  | zero => intro acc; simp only [chunkLoopGo, if_pos hpos]
  | succ fuel ih => intro acc; simp only [chunkLoopGo, if_pos hpos]; exact ih _

theorem retryGo_sleeps_get (cfg : RetryConfig) (outcome : Nat → Except ε ρ) :
    ∀ remaining attempt lastError k d,
      (retryGo cfg outcome attempt lastError remaining).sleeps[k]? = some d →
      d = backoffDelay cfg (attempt + k) := by
  intro remaining
  induction remaining with
  | zero =>
    intro attempt le k d h
    simp [retryGo] at h
  | succ remaining ih =>
    intro attempt le k d h
    cases ho : outcome attempt with
    | ok r => simp [retryGo, ho] at h
    | error e =>
      by_cases hr : remaining = 0
      · subst hr; simp [retryGo, ho] at h
      · simp only [retryGo, ho, if_neg hr] at h
        cases k with
        | zero =>
          simp at h
          simp [← h]
        | succ k =>
          simp at h
          have hik := ih (attempt + 1) (some e) k d h
          rw [hik]
          congr 1
          omega

theorem retryGo_all_fail (cfg : RetryConfig) (outcome : Nat → Except ε ρ) (errOf : Nat → ε)
    (hfail : ∀ k, outcome k = .error (errOf k)) :
    ∀ remaining attempt lastError, 1 ≤ remaining →
      (retryGo cfg outcome attempt lastError remaining).result
          = .error (some (errOf (attempt + remaining - 1))) ∧
      (retryGo cfg outcome attempt lastError remaining).errorIncrements = remaining := by
  intro remaining
  induction remaining with
  | zero => intro attempt le h; omega
  | succ remaining ih =>
    intro attempt le _
    by_cases hr : remaining = 0
    · subst hr; simp [retryGo, hfail attempt]
    · simp only [retryGo, hfail attempt, if_neg hr]
      have hik := ih (attempt + 1) (some (errOf attempt)) (by omega)
      have harg : attempt + 1 + remaining - 1 = attempt + (remaining + 1) - 1 := by omega
      rw [harg] at hik
      exact ⟨hik.1, by rw [hik.2]⟩

theorem clearCaches_configCache (s : EngineState V) :
    (clearCaches s).configCache = s.configCache := rfl

theorem manageMemory_configCache (heapUsed : Int) (s : EngineState V) :
    (manageMemory heapUsed s).configCache = s.configCache := by
  unfold manageMemory
  split <;> rfl

theorem fetchCostDataOptimized_configCache (remote : List String → V)
    (ids : List String) (s : EngineState V) :
    (fetchCostDataOptimized remote ids s).2.configCache = s.configCache := by
  cases h : mapGet s.costCache (costCacheKey ids) with
  | none => simp [fetchCostDataOptimized, h]
  | some v => simp [fetchCostDataOptimized, h]

/-! ## Claims -/

/-- Claim C1: for every array `arr` and every chunk size `n ≥ 1`,
`_chunkArray(arr, n)` partitions `arr` into contiguous groups preserving
order and total count: concatenating the chunks yields `arr`, the number
of chunks is `⌈|arr| / n⌉` (written `(|arr| + n - 1) / n` in natural
division), and every chunk except possibly the last has length exactly
`n`. -/
theorem c1_chunkArray_partition (array : List α) (n : Nat) (hn : 1 ≤ n) :
    (chunkArray array n).flatten = array ∧
    (chunkArray array n).length = (array.length + n - 1) / n ∧
    ∀ c ∈ (chunkArray array n).dropLast, c.length = n :=
  ⟨chunkArray_flatten array n (by omega), chunkArray_length array n (by omega),
   chunkArray_dropLast array n (by omega)⟩

/-- Witness for C1, at `arr = [10, 20, 30, 40, 50]`, `n = 2`. -/
theorem c1_chunkArray_partition_witness :
    chunkArray [10, 20, 30, 40, 50] 2 = [[10, 20], [30, 40], [50]] ∧
    ((chunkArray [10, 20, 30, 40, 50] 2).flatten = [10, 20, 30, 40, 50] ∧
     (chunkArray [10, 20, 30, 40, 50] 2).length = ([10, 20, 30, 40, 50].length + 2 - 1) / 2 ∧
     ∀ c ∈ (chunkArray [10, 20, 30, 40, 50] 2).dropLast, c.length = 2) :=
  ⟨by simp [chunkArray], c1_chunkArray_partition [10, 20, 30, 40, 50] 2 (by omega)⟩

/-- Claim C10: the `_chunkArray` loop terminates for every array when
`chunkSize ≥ 1` (some fuel suffices), and the precondition is required:
with `chunkSize = 0` and a nonempty array the loop index never advances
and no amount of fuel completes the loop. -/
theorem c10_chunk_loop_termination (array : List α) (n : Nat) :
    (1 ≤ n → ∃ fuel r, chunkLoopGo array n 0 [] fuel = some r) ∧
    (n = 0 → array ≠ [] → ∀ fuel, chunkLoopGo array 0 0 [] fuel = none) := by
  constructor
  · intro hn
    refine ⟨array.length, ?_⟩
    apply chunkLoopGo_some
    calc array.length = array.length * 1 := by omega
    _ ≤ array.length * n := Nat.mul_le_mul_left _ hn
    _ = 0 + array.length * n := by omega
  · intro hn hne fuel
    exact chunkLoopGo_zero_none array hne fuel []

/-- Witness for C10: the loop on `[10, 20, 30]` with chunk size 2
terminates (explicitly, with fuel 3, yielding the two chunks), and with
chunk size 0 on `[10]` no fuel completes it. -/
theorem c10_chunk_loop_termination_witness :
    (∃ fuel r, chunkLoopGo [10, 20, 30] 2 0 [] fuel = some r) ∧
    chunkLoopGo [10, 20, 30] 2 0 [] 3 = some [[10, 20], [30]] ∧
    chunkLoopGo [10] 0 0 [] 5 = none :=
  ⟨(c10_chunk_loop_termination [10, 20, 30] 2).1 (by omega), by decide,
   (c10_chunk_loop_termination [10] 0).2 rfl (by decide) 5⟩

/-- Claim C2: the backoff delay slept before retry `k + 1` (the k-th
recorded sleep, 0-indexed as `sleeps[k-1]`) equals
`min(baseDelayMs · 2^(k-1), maxDelayMs)`; as a function of the attempt
number the delay is non-decreasing and never exceeds `maxDelayMs`. -/
theorem c2_backoff_delay_formula (cfg : RetryConfig) (outcome : Nat → Except ε ρ)
    (k d j j' : Nat) :
    (1 ≤ k → (executeGraphQLWithRetry cfg outcome).sleeps[k - 1]? = some d →
        d = min (cfg.baseDelayMs * 2 ^ (k - 1)) cfg.maxDelayMs) ∧
    (1 ≤ j → j ≤ j' → backoffDelay cfg j ≤ backoffDelay cfg j') ∧
    backoffDelay cfg j ≤ cfg.maxDelayMs := by
  refine ⟨?_, ?_, min_le_right _ _⟩
  · intro hk h
    have hsg := retryGo_sleeps_get cfg outcome cfg.maxRetries 1 none (k - 1) d h
    have hidx : 1 + (k - 1) = k := by omega
    rw [hsg, hidx]
    rfl
  · intro hj hjj
    unfold backoffDelay
    refine min_le_min (Nat.mul_le_mul_left _ ?_) le_rfl
    exact Nat.pow_le_pow_right (by omega) (by omega)

/-- Witness for C2, at the default retry configuration with an
always-failing request: the first recorded sleep is 1000 ms and equals
the formula, and the delays are monotone and capped. -/
theorem c2_backoff_delay_formula_witness :
    (@executeGraphQLWithRetry Nat Nat defaultRetryConfig (fun k => Except.error k)).sleeps[0]?
        = some 1000 ∧
    (1000 : Nat) = min (defaultRetryConfig.baseDelayMs * 2 ^ (1 - 1)) defaultRetryConfig.maxDelayMs ∧
    backoffDelay defaultRetryConfig 1 ≤ backoffDelay defaultRetryConfig 2 ∧
    backoffDelay defaultRetryConfig 1 ≤ defaultRetryConfig.maxDelayMs := by
  have h := @c2_backoff_delay_formula Nat Nat defaultRetryConfig (fun k => Except.error k) 1 1000 1 2
  exact ⟨by decide, h.1 (by omega) (by decide), h.2.1 (by omega) (by omega),
    (@c2_backoff_delay_formula Nat Nat defaultRetryConfig (fun k => Except.error k) 1 1000 1 1).2.2⟩

/-- Claim C4: when every attempt fails, `_executeGraphQLWithRetry` raises
the terminal failure carrying the final attempt's error (the
`ExhaustedRetries` outcome: the loop breaks at `attempt === maxRetries`
and rethrows `lastError`, the final cause) rather than succeeding or
returning silently, and `metrics.errors` is incremented exactly
`maxRetries` times. -/
theorem c4_exhausted_retries (cfg : RetryConfig) (outcome : Nat → Except ε ρ)
    (errOf : Nat → ε) (h1 : 1 ≤ cfg.maxRetries)
    (hfail : ∀ k, outcome k = .error (errOf k)) :
    (executeGraphQLWithRetry cfg outcome).result = .error (some (errOf cfg.maxRetries)) ∧
    (executeGraphQLWithRetry cfg outcome).errorIncrements = cfg.maxRetries := by
  have hall := retryGo_all_fail cfg outcome errOf hfail cfg.maxRetries 1 none h1
  unfold executeGraphQLWithRetry
  have harg : 1 + cfg.maxRetries - 1 = cfg.maxRetries := by omega
  rw [harg] at hall
  exact hall

/-- Witness for C4, at the default configuration (`maxRetries = 3`) with
every attempt failing with its attempt number: the call throws the final
cause (the error of attempt 3) and records 3 error increments. -/
theorem c4_exhausted_retries_witness :
    1 ≤ defaultRetryConfig.maxRetries ∧
    ((@executeGraphQLWithRetry Nat Nat defaultRetryConfig (fun k => Except.error k)).result
        = Except.error (some 3) ∧
     (@executeGraphQLWithRetry Nat Nat defaultRetryConfig (fun k => Except.error k)).errorIncrements
        = 3) :=
  ⟨by decide,
   c4_exhausted_retries defaultRetryConfig (fun k => Except.error k) (fun k => k)
     (by decide) (fun k => rfl)⟩

end ShopifySync

namespace ShopifySync

/-- Claim C5 (counterexample): with `maxRetries = 3` and a request that
fails on attempts 1 and 2 and succeeds on attempt 3, the call completes
successfully with 2 error increments, but the API-call counter records
only 1 increment (the caller increments `apiCalls` once after the awaited
call returns, at e.g. line 196), not the 3 per-attempt increments the
claim asserts. -/
theorem c5_counterexample :
    (fetchStepEffects defaultRetryConfig failTwiceOutcome).succeeded = true ∧
    (fetchStepEffects defaultRetryConfig failTwiceOutcome).errorIncrements = 2 ∧
    (fetchStepEffects defaultRetryConfig failTwiceOutcome).apiCallIncrements = 1 ∧
    (fetchStepEffects defaultRetryConfig failTwiceOutcome).apiCallIncrements ≠ 3 := by
  decide

/-- Claim C5 (amended): for every request that fails on its first two
attempts and succeeds on the third, with `maxRetries = 3` the call
completes successfully, the errors counter records exactly 2 increments,
and the API-call counter records exactly 1 increment (it counts logical
requests, incremented by the caller after the retrying call returns, not
individual attempts). -/
theorem c5_retry_success_metrics (cfg : RetryConfig) (outcome : Nat → Except ε ρ)
    (e1 e2 : ε) (r : ρ) (hmax : cfg.maxRetries = 3) (h1 : outcome 1 = .error e1)
    (h2 : outcome 2 = .error e2) (h3 : outcome 3 = .ok r) :
    (fetchStepEffects cfg outcome).succeeded = true ∧
    (fetchStepEffects cfg outcome).errorIncrements = 2 ∧
    (fetchStepEffects cfg outcome).apiCallIncrements = 1 := by
  simp [fetchStepEffects, executeGraphQLWithRetry, hmax, retryGo, h1, h2, h3]

/-- Witness for the amended C5 at the concrete fail-fail-succeed
behaviour. -/
theorem c5_retry_success_metrics_witness :
    defaultRetryConfig.maxRetries = 3 ∧
    failTwiceOutcome 1 = .error 1 ∧
    failTwiceOutcome 2 = .error 2 ∧
    failTwiceOutcome 3 = .ok 0 ∧
    ((fetchStepEffects defaultRetryConfig failTwiceOutcome).succeeded = true ∧
     (fetchStepEffects defaultRetryConfig failTwiceOutcome).errorIncrements = 2 ∧
     (fetchStepEffects defaultRetryConfig failTwiceOutcome).apiCallIncrements = 1) :=
  ⟨rfl, rfl, rfl, rfl,
   c5_retry_success_metrics defaultRetryConfig failTwiceOutcome 1 2 0 rfl rfl rfl rfl⟩

/-- Claim C3: for every mode string outside `{full, partial, single}`,
`sync(mode, params)` raises the unknown-sync-type error, and no remote-API
call and no persistence call occurs: the `apiCalls` and `dbQueries`
counters and the API/persistence invocation traces are unchanged,
whatever the three strategy pipelines would have done. -/
theorem c3_invalid_mode_no_effects (syncType : String)
    (fullSyncFn incrSyncFn singleSyncFn : EngineState V → Except String ρ × EngineState V)
    (s : EngineState V) (h1 : syncType ≠ "full") (h2 : syncType ≠ "partial")
    (h3 : syncType ≠ "single") :
    (syncRun syncType fullSyncFn incrSyncFn singleSyncFn s).1
        = .error ("Unknown sync type: " ++ syncType) ∧
    (syncRun syncType fullSyncFn incrSyncFn singleSyncFn s).2.metrics.apiCalls
        = s.metrics.apiCalls ∧
    (syncRun syncType fullSyncFn incrSyncFn singleSyncFn s).2.metrics.dbQueries
        = s.metrics.dbQueries ∧
    (syncRun syncType fullSyncFn incrSyncFn singleSyncFn s).2.apiTrace = s.apiTrace ∧
    (syncRun syncType fullSyncFn incrSyncFn singleSyncFn s).2.dbTrace = s.dbTrace := by
  simp [syncRun, h1, h2, h3]

/-- Witness for C3 at `sync("bogus", ...)` on the freshly-constructed
engine state, with pipelines that would report success and touch
nothing. -/
theorem c3_invalid_mode_no_effects_witness :
    ("bogus" : String) ≠ "full" ∧ ("bogus" : String) ≠ "partial" ∧
    ("bogus" : String) ≠ "single" ∧
    ((syncRun "bogus" (fun s => ((Except.ok (0 : Nat) : Except String Nat), s))
        (fun s => (Except.ok 0, s)) (fun s => (Except.ok 0, s)) (@initEngineState Nat)).1
        = Except.error ("Unknown sync type: " ++ "bogus") ∧
     (syncRun "bogus" (fun s => ((Except.ok (0 : Nat) : Except String Nat), s))
        (fun s => (Except.ok 0, s)) (fun s => (Except.ok 0, s)) (@initEngineState Nat)).2.metrics.apiCalls
        = (@initEngineState Nat).metrics.apiCalls ∧
     (syncRun "bogus" (fun s => ((Except.ok (0 : Nat) : Except String Nat), s))
        (fun s => (Except.ok 0, s)) (fun s => (Except.ok 0, s)) (@initEngineState Nat)).2.metrics.dbQueries
        = (@initEngineState Nat).metrics.dbQueries ∧
     (syncRun "bogus" (fun s => ((Except.ok (0 : Nat) : Except String Nat), s))
        (fun s => (Except.ok 0, s)) (fun s => (Except.ok 0, s)) (@initEngineState Nat)).2.apiTrace
        = (@initEngineState Nat).apiTrace ∧
     (syncRun "bogus" (fun s => ((Except.ok (0 : Nat) : Except String Nat), s))
        (fun s => (Except.ok 0, s)) (fun s => (Except.ok 0, s)) (@initEngineState Nat)).2.dbTrace
        = (@initEngineState Nat).dbTrace) :=
  ⟨by decide, by decide, by decide,
   c3_invalid_mode_no_effects "bogus" _ _ _ (@initEngineState Nat)
     (by decide) (by decide) (by decide)⟩

/-- Claim C6 (counterexample): the cost-cache key is NOT invariant across
all identifier lists denoting the same set: `["a", "a"]` and `["a"]` have
the same members, but `productIds.sort().join(',')` does not deduplicate,
so their keys differ (`"a,a"` vs `"a"`) and the second list misses the
entry stored for the first. -/
theorem c6_counterexample :
    (∀ x : String, x ∈ (["a", "a"] : List String) ↔ x ∈ (["a"] : List String)) ∧
    costCacheKey ["a", "a"] ≠ costCacheKey ["a"] :=
  ⟨fun x => by simp, by decide⟩

/-- Claim C6 (amended): the cost-cache key is order-independent: any two
identifier lists that are permutations of each other (same multiset,
duplicates preserved) produce the same canonical key, so a lookup for the
reordered list hits the entry stored for the first. -/
theorem c6_cache_key_perm (l1 l2 : List String) (h : l1.Perm l2) :
    costCacheKey l1 = costCacheKey l2 := by
  unfold costCacheKey
  congr 1
  exact List.eq_of_perm_of_sorted
    ((List.perm_insertionSort jsStringLe l1).trans
      (h.trans (List.perm_insertionSort jsStringLe l2).symm))
    (List.sorted_insertionSort jsStringLe l1)
    (List.sorted_insertionSort jsStringLe l2)

/-- Witness for the amended C6: `["b", "a"]` and `["a", "b"]` share the
canonical key `"a,b"`. -/
theorem c6_cache_key_perm_witness :
    (["b", "a"] : List String).Perm ["a", "b"] ∧
    costCacheKey ["b", "a"] = costCacheKey ["a", "b"] ∧
    costCacheKey ["b", "a"] = "a,b" :=
  ⟨by decide, c6_cache_key_perm ["b", "a"] ["a", "b"] (by decide), by decide⟩

end ShopifySync

namespace ShopifySync

/-- Claim C7 (counterexample): configuration values are NOT validated to
be positive before use: constructing the engine with `batchSize: -5`
stores `-5` verbatim in `this.config` (the `||` fallback only replaces
falsy values, i.e. an absent option or `0`), so a non-positive supplied
value is used as-is. -/
theorem c7_counterexample :
    ({ batchSize := some (-5) } : SyncOptions).batchSize = some (-5) ∧
    (mkSyncConfig { batchSize := some (-5) } {}).batchSize = -5 ∧
    ¬ 0 < (mkSyncConfig { batchSize := some (-5) } {}).batchSize := by
  refine ⟨rfl, rfl, by decide⟩

/-- Claim C7 (amended): each recognized option (`batchSize`, `chunkSize`,
`maxRetries`, `baseDelayMs`, `maxDelayMs`, `memoryThreshold`) receives
its documented default when absent, and also when supplied as the falsy
value `0`; any other supplied value — negative values included — is
stored verbatim: no positivity validation occurs. -/
theorem c7_config_defaults (o : SyncOptions) :
    ((o.batchSize = none → (mkSyncConfig o {}).batchSize = 250) ∧
     (o.batchSize = some 0 → (mkSyncConfig o {}).batchSize = 250) ∧
     ∀ v, o.batchSize = some v → v ≠ 0 → (mkSyncConfig o {}).batchSize = v) ∧
    ((o.maxRetries = none → (mkSyncConfig o {}).maxRetries = 3) ∧
     (o.maxRetries = some 0 → (mkSyncConfig o {}).maxRetries = 3) ∧
     ∀ v, o.maxRetries = some v → v ≠ 0 → (mkSyncConfig o {}).maxRetries = v) ∧
    ((o.baseDelayMs = none → (mkSyncConfig o {}).baseDelayMs = 1000) ∧
     (o.baseDelayMs = some 0 → (mkSyncConfig o {}).baseDelayMs = 1000) ∧
     ∀ v, o.baseDelayMs = some v → v ≠ 0 → (mkSyncConfig o {}).baseDelayMs = v) ∧
    ((o.maxDelayMs = none → (mkSyncConfig o {}).maxDelayMs = 30000) ∧
     (o.maxDelayMs = some 0 → (mkSyncConfig o {}).maxDelayMs = 30000) ∧
     ∀ v, o.maxDelayMs = some v → v ≠ 0 → (mkSyncConfig o {}).maxDelayMs = v) ∧
    ((o.memoryThreshold = none → (mkSyncConfig o {}).memoryThreshold = 500 * 1024 * 1024) ∧
     (o.memoryThreshold = some 0 → (mkSyncConfig o {}).memoryThreshold = 500 * 1024 * 1024) ∧
     ∀ v, o.memoryThreshold = some v → v ≠ 0 → (mkSyncConfig o {}).memoryThreshold = v) ∧
    ((o.chunkSize = none → (mkSyncConfig o {}).chunkSize = 100) ∧
     (o.chunkSize = some 0 → (mkSyncConfig o {}).chunkSize = 100) ∧
     ∀ v, o.chunkSize = some v → v ≠ 0 → (mkSyncConfig o {}).chunkSize = v) := by
  refine ⟨⟨?_, ?_, ?_⟩, ⟨?_, ?_, ?_⟩, ⟨?_, ?_, ?_⟩, ⟨?_, ?_, ?_⟩, ⟨?_, ?_, ?_⟩, ⟨?_, ?_, ?_⟩⟩
  all_goals first
    | (intro h; simp [mkSyncConfig, jsOrDefault, spreadOver, h])
    | (intro v hv hnz; simp [mkSyncConfig, jsOrDefault, spreadOver, hv, hnz])

/-- Witness for the amended C7: an absent `batchSize` defaults to 250, a
zero `maxRetries` defaults to 3, and a negative `chunkSize` of -7 is
stored verbatim. -/
theorem c7_config_defaults_witness :
    (mkSyncConfig {} {}).batchSize = 250 ∧
    (mkSyncConfig { maxRetries := some 0 } {}).maxRetries = 3 ∧
    (mkSyncConfig { chunkSize := some (-7) } {}).chunkSize = -7 :=
  ⟨(c7_config_defaults {}).1.1 rfl,
   (c7_config_defaults { maxRetries := some 0 }).2.1.2.1 rfl,
   (c7_config_defaults { chunkSize := some (-7) }).2.2.2.2.2.2.2 (-7) rfl (by decide)⟩

/-- Claim C8: `_updateRateLimitFromHeaders` sets the rate-limit state
verbatim from the response: a used/limit capacity pair `(current, max)`
makes `remaining = max - current` (so used 35 of limit 40 leaves exactly
5) and `bucketSize = max`; a present retry-after value of `secs` seconds
sets `resetTime = now + secs * 1000` milliseconds. -/
theorem c8_rate_limit_update (now current max : Int) (ra : Option Int)
    (s : RateLimitState) :
    (updateRateLimitFromHeaders now ⟨some (current, max), ra⟩ s).remaining
        = max - current ∧
    (updateRateLimitFromHeaders now ⟨some (current, max), ra⟩ s).bucketSize = max ∧
    ∀ secs, ra = some secs →
      (updateRateLimitFromHeaders now ⟨some (current, max), ra⟩ s).resetTime
          = now + secs * 1000 := by
  cases ra with
  | none => exact ⟨rfl, rfl, fun secs h => by cases h⟩
  | some secs0 =>
    refine ⟨rfl, rfl, fun secs h => ?_⟩
    cases h
    rfl

/-- Witness for C8 at `used = 35`, `limit = 40`, `retry-after = 7`,
`now = 0`, starting from the constructor's initial rate-limit state. -/
theorem c8_rate_limit_update_witness :
    (updateRateLimitFromHeaders 0 ⟨some (35, 40), some 7⟩ ⟨40, 1000, 40⟩).remaining = 5 ∧
    (updateRateLimitFromHeaders 0 ⟨some (35, 40), some 7⟩ ⟨40, 1000, 40⟩).bucketSize = 40 ∧
    (updateRateLimitFromHeaders 0 ⟨some (35, 40), some 7⟩ ⟨40, 1000, 40⟩).resetTime = 7000 := by
  have h := c8_rate_limit_update 0 35 40 (some 7) ⟨40, 1000, 40⟩
  refine ⟨?_, ?_, ?_⟩
  · rw [h.1]; decide
  · rw [h.2.1]
  · rw [h.2.2 7 rfl]; decide

/-- Claim C9: when the memory guard observes heap usage above the
threshold it evicts wholesale: afterwards every cache's size is 0
(`_clearCaches` empties the product, variant and cost caches;
`configCache` is never written anywhere in part_000, so it is empty in
every reachable state — taken here as the hypothesis `hcfgc`, preserved
by every modelled operation per the `_configCache` lemmas above), and a
subsequent cost-data lookup for a previously-cached key is a miss that
increments `cacheMisses`, recomputes via the remote pipeline, and
re-stores the value. -/
theorem c9_memory_eviction (remote : List String → V) (ids : List String)
    (s : EngineState V) (heapUsed : Int) (v : V)
    (hheap : heapUsed > s.config.memoryThreshold)
    (hcfgc : s.configCache = [])
    (hprev : mapGet s.costCache (costCacheKey ids) = some v) :
    ((manageMemory heapUsed s).configCache.length = 0 ∧
     (manageMemory heapUsed s).productCache.length = 0 ∧
     (manageMemory heapUsed s).variantCache.length = 0 ∧
     (manageMemory heapUsed s).costCache.length = 0) ∧
    ((fetchCostDataOptimized remote ids (manageMemory heapUsed s)).2.metrics.cacheMisses
        = (manageMemory heapUsed s).metrics.cacheMisses + 1 ∧
     (fetchCostDataOptimized remote ids (manageMemory heapUsed s)).1 = remote ids ∧
     mapGet (fetchCostDataOptimized remote ids (manageMemory heapUsed s)).2.costCache
         (costCacheKey ids) = some (remote ids)) := by
  have hm : manageMemory heapUsed s = clearCaches s := by
    unfold manageMemory
    rw [if_pos hheap]
  rw [hm]
  refine ⟨⟨?_, ?_, ?_, ?_⟩, ?_, ?_, ?_⟩
  · simp [clearCaches, hcfgc]
  · simp [clearCaches]
  · simp [clearCaches]
  · simp [clearCaches]
  · simp [fetchCostDataOptimized, clearCaches, mapGet]
  · simp [fetchCostDataOptimized, clearCaches, mapGet]
  · simp [fetchCostDataOptimized, clearCaches, mapGet, mapSet]

/-- Witness for C9 on a concrete engine state caching cost data for
`["p1"]`, heap usage one byte above the default 500MB threshold, and a
recomputation returning 42. -/
theorem c9_memory_eviction_witness :
    ((524288001 : Int) > cachedEngineState.config.memoryThreshold ∧
     cachedEngineState.configCache = [] ∧
     mapGet cachedEngineState.costCache (costCacheKey ["p1"]) = some 7) ∧
    (((manageMemory 524288001 cachedEngineState).configCache.length = 0 ∧
      (manageMemory 524288001 cachedEngineState).productCache.length = 0 ∧
      (manageMemory 524288001 cachedEngineState).variantCache.length = 0 ∧
      (manageMemory 524288001 cachedEngineState).costCache.length = 0) ∧
     ((fetchCostDataOptimized (fun _ => 42) ["p1"]
          (manageMemory 524288001 cachedEngineState)).2.metrics.cacheMisses
        = (manageMemory 524288001 cachedEngineState).metrics.cacheMisses + 1 ∧
      (fetchCostDataOptimized (fun _ => 42) ["p1"]
          (manageMemory 524288001 cachedEngineState)).1 = 42 ∧
      mapGet (fetchCostDataOptimized (fun _ => 42) ["p1"]
          (manageMemory 524288001 cachedEngineState)).2.costCache
          (costCacheKey ["p1"]) = some 42)) :=
  ⟨⟨by decide, rfl, by decide⟩,
   c9_memory_eviction (fun _ => 42) ["p1"] cachedEngineState 524288001 7
     (by decide) rfl (by decide)⟩

end ShopifySync
